import Mathlib

/-!
Verification of the validation/retry/rollback decision engine of the
coding-agent-template repository, shallowly embedded in Lean 4.

Sources embedded here:
  src/lib/validation/retry-logic.ts          (AttemptMetadata, RetryManager)
  src/lib/validation/pattern-recognition.ts  (analyzeErrorPatterns et al.)
  src/lib/validation/rollback-engine.ts      (RollbackEngine.makeRollbackDecision)
  src/lib/validation/test-executor.ts        (VersionController history)
  src/lib/validation/test-generator.ts       (executeAgentWithValidation loop body)

Conventions: JS numbers become `Rat` (all constants compared in the code are
exactly representable, and the claims checked here never hinge on binary
floating-point rounding); JS arrays become `List`; optional fields become
`Option`; class state is passed explicitly.  Where JS reference aliasing is the
property of interest (returned array copies), a small explicit heap of array
cells is used.
-/

/-! Section: Data model (retry-logic.ts) -/

/-- Source: `testResults` field of `AttemptMetadata`: `{ passed: boolean; errors: string[] }`. -/
structure TestResults where
  passed : Bool
  errors : List String
  deriving DecidableEq

/-- Source: `agentResult` field of `AttemptMetadata`: `{ success: boolean; error?: string }`. -/
structure AgentResult where
  success : Bool
  error : Option String
  deriving DecidableEq

/-- One recorded attempt (`AttemptMetadata` in retry-logic.ts).  The
`timestamp: Date` field is real time and plays no role in any decision
function, so it is omitted from the embedding. -/
structure AttemptMetadata where
  attemptNumber : Nat
  commitHash : Option String := none
  testResults : Option TestResults := none
  agentResult : Option AgentResult := none
  deriving DecidableEq

/-! Section: SimilarityScorer: word-set Jaccard overlap (pattern-recognition.ts) -/

/-- Split a character list at every whitespace character, the semantics of
`String.prototype.split` with a single-character separator: consecutive
separators produce empty segments. -/
def splitOnWsChar : List Char → List (List Char)
  | [] => [[]]
  | c :: cs =>
      let r := splitOnWsChar cs
      if c.isWhitespace then [] :: r
      else (c :: r.headD []) :: r.tail

/-- JavaScript `s.split(/\s+/)`: segments of `s` between maximal whitespace
runs.  Interior empty segments collapse (the regex eats the whole run), but an
empty segment survives at the front when the string starts with whitespace and
at the back when it ends with whitespace, and `"".split(/\s+/)` is `[""]`. -/
def jsSplitWs (cs : List Char) : List (List Char) :=
  match cs with
  | [] => [[]]
  | c :: _ =>
      let toks := (splitOnWsChar cs).filter (fun t => t ≠ [])
      (if c.isWhitespace then [[]] else []) ++ toks ++
        (if (cs.getLastD c).isWhitespace then [[]] else [])

/-- The word set of an error list:
`new Set(errors.join(' ').toLowerCase().split(/\s+/))`
(pattern-recognition.ts lines 203-204). -/
def wordSet (errors : List String) : Finset (List Char) :=
  (jsSplitWs (((String.intercalate " " errors).toList).map Char.toLower)).toFinset

/-- Source: `calculateErrorSimilarity` (pattern-recognition.ts lines 198-210). -/
def calculateErrorSimilarity (errors1 errors2 : List String) : ℚ :=
  if errors1.length = 0 ∧ errors2.length = 0 then 1
  else if errors1.length = 0 ∨ errors2.length = 0 then 0
  else
    let words1 := wordSet errors1
    let words2 := wordSet errors2
    ((words1 ∩ words2).card : ℚ) / ((words1 ∪ words2).card : ℚ)

/-! Section: PatternClassifier (pattern-recognition.ts) -/

/-- Source: `ErrorPattern.type`. -/
inductive PatternType where
  | stuck_in_loop
  | no_progress
  | timeout
  | different_errors
  | improving
  deriving DecidableEq

instance : BEq PatternType := ⟨fun a b => decide (a = b)⟩

/-- Source: `ErrorPattern`. -/
structure ErrorPattern where
  type : PatternType
  confidence : ℚ
  description : String
  recommendation : String
  deriving DecidableEq

/-- Source: `overallAssessment` values: `'continue' | 'rollback' | 'manual_intervention'`
(`cont` stands for the string `'continue'`, a Lean keyword). -/
inductive Assessment where
  | cont
  | rollback
  | manual_intervention
  deriving DecidableEq

instance : BEq Assessment := ⟨fun a b => decide (a = b)⟩

/-- Source: `PatternAnalysisResult`. -/
structure PatternAnalysisResult where
  patterns : List ErrorPattern
  overallAssessment : Assessment
  reasoning : String
  deriving DecidableEq

namespace PatternRecognition

/-- Source: `detectStuckInLoop` (pattern-recognition.ts lines 58-82).
`attempts.slice(-2)` is `attempts.drop (attempts.length - 2)`. -/
def detectStuckInLoop (attempts : List AttemptMetadata) : Option ErrorPattern :=
  if attempts.length < 2 then none
  else
    match attempts.drop (attempts.length - 2) with
    | [prev, current] =>
        match prev.testResults, current.testResults with
        | some pt, some ct =>
            let similarity := calculateErrorSimilarity pt.errors ct.errors
            if similarity > 85/100 then
              some { type := .stuck_in_loop, confidence := similarity,
                     description := "Very similar errors appearing in consecutive attempts",
                     recommendation := "Try a completely different approach or rollback" }
            else none
        | _, _ => none
    | _ => none

/-- Source: `errorCounts.every((count, i) => i === 0 || count <= errorCounts[i-1])`:
each element at most the previous one. -/
def nonIncreasingL : List Nat → Bool
  | a :: b :: rest => b ≤ a && nonIncreasingL (b :: rest)
  | _ => true

/-- Source: `count >= errorCounts[i-1]` variant: each element at least the previous one. -/
def nonDecreasingL : List Nat → Bool
  | a :: b :: rest => a ≤ b && nonDecreasingL (b :: rest)
  | _ => true

/-- Source: `count < errorCounts[i-1]` variant: each element strictly below the previous. -/
def strictlyDecreasingL : List Nat → Bool
  | a :: b :: rest => b < a && strictlyDecreasingL (b :: rest)
  | _ => true

/-- The error-count series of `detectProgress`/`detectImprovement`:
`attempts.slice(-3).filter(a => a.testResults).map(a => a.testResults!.errors.length)`. -/
def errorCountsOf (attempts : List AttemptMetadata) : List Nat :=
  ((attempts.drop (attempts.length - 3)).filterMap (fun a => a.testResults)).map
    (fun t => t.errors.length)

/-- Source: `detectProgress` (pattern-recognition.ts lines 87-125).  Note the source's
second branch is guarded by `!isDecreasing && errorCounts.every(c => c ===
errorCounts[0])`; all-equal counts make `isDecreasing` true, so that guard is
contradictory and the branch can never fire (see `detectProgress_no_seven_tenths`). -/
def detectProgress (attempts : List AttemptMetadata) : Option ErrorPattern :=
  if attempts.length < 2 then none
  else
    let errorCounts := errorCountsOf attempts
    if errorCounts.length < 2 then none
    else
      let isDecreasing := nonIncreasingL errorCounts
      let isIncreasing := nonDecreasingL errorCounts
      if isIncreasing && decide (errorCounts.headD 0 < errorCounts.getLastD 0) then
        some { type := .no_progress, confidence := 8/10,
               description := "Error count is increasing with each attempt",
               recommendation := "Current approach is making things worse. Rollback and try different strategy." }
      else if !isDecreasing && errorCounts.all (fun c => c == errorCounts.headD 0) then
        some { type := .no_progress, confidence := 7/10,
               description := "Error count is not decreasing",
               recommendation := "No progress detected. Consider alternative approach." }
      else none

/-- JavaScript `hay.includes(needle)` on characters: does `needle` occur as a
contiguous run inside `hay`? -/
def startsWithL : List Char → List Char → Bool
  | [], _ => true
  | _ :: _, [] => false
  | a :: as, b :: bs => a == b && startsWithL as bs

/-- See `startsWithL`; scans `hay` left to right. -/
def containsL : List Char → List Char → Bool
  | [], needle => startsWithL needle []
  | c :: cs, needle => startsWithL needle (c :: cs) || containsL cs needle

/-- Source: `a.agentResult?.error?.toLowerCase().includes('timeout')` (line 131). -/
def mentionsTimeout (a : AttemptMetadata) : Bool :=
  match a.agentResult with
  | some r =>
      match r.error with
      | some e => containsL (e.toList.map Char.toLower) ("timeout".toList)
      | none => false
  | none => false

/-- Source: `detectTimeoutPattern` (pattern-recognition.ts lines 130-143). -/
def detectTimeoutPattern (attempts : List AttemptMetadata) : Option ErrorPattern :=
  let timeoutCount := (attempts.filter mentionsTimeout).length
  if timeoutCount ≥ 2 then
    some { type := .timeout, confidence := 9/10,
           description := "Timeout errors occurred in " ++ toString timeoutCount ++ " attempts",
           recommendation := "Task may be too complex or require more time. Consider breaking into smaller tasks." }
  else none

/-- Source: `detectImprovement` (pattern-recognition.ts lines 148-193). -/
def detectImprovement (attempts : List AttemptMetadata) : Option ErrorPattern :=
  if attempts.length < 2 then none
  else
    let errorCounts := errorCountsOf attempts
    if errorCounts.length < 2 then none
    else if strictlyDecreasingL errorCounts then
      let improvementRate : ℚ :=
        1 - (errorCounts.getLastD 0 : ℚ) / (errorCounts.headD 0 : ℚ)
      some { type := .improving, confidence := min (improvementRate + 3/10) 1,
             description := "Error count decreasing: " ++ toString (errorCounts.headD 0)
               ++ " to " ++ toString (errorCounts.getLastD 0),
             recommendation := "Progress detected. Continue with current approach." }
    else
      match attempts.drop (attempts.length - 2) with
      | [prev, current] =>
          match prev.testResults, current.testResults with
          | some pt, some ct =>
              let similarity := calculateErrorSimilarity pt.errors ct.errors
              if similarity < 1/2 then
                some { type := .different_errors, confidence := 1 - similarity,
                       description := "Different errors in each attempt, indicating exploration of solutions",
                       recommendation := "Continue iterating, you are trying different approaches." }
              else none
          | _, _ => none
      | _ => none

/-- Source: `determineOverallAssessment` (pattern-recognition.ts lines 215-270). -/
def determineOverallAssessment (patterns : List ErrorPattern)
    (attempts : List AttemptMetadata) : Assessment × String :=
  let hasStuckPattern := patterns.any fun p =>
    p.type == .stuck_in_loop && decide (p.confidence > 8/10)
  let hasNoProgress := patterns.any fun p =>
    p.type == .no_progress && decide (p.confidence > 7/10)
  let hasTimeout := patterns.any fun p => p.type == .timeout
  let hasImprovement := patterns.any fun p =>
    p.type == .improving || p.type == .different_errors
  if hasStuckPattern then
    (.rollback, "Detected repeating error pattern. Rollback and try alternative approach.")
  else if hasNoProgress && decide (attempts.length ≥ 3) then
    (.rollback, "No progress after multiple attempts. Rollback to last stable version.")
  else if hasTimeout then
    (.manual_intervention, "Repeated timeout errors. Task may need to be broken down or require manual review.")
  else if hasImprovement then
    (.cont, "Progress detected. Continue with current approach.")
  else if attempts.length < 3 then
    (.cont, "Still within retry threshold. Continue attempting.")
  else
    (.rollback, "Max attempts reached without clear improvement. Rollback recommended.")

/-- Source: `analyzeErrorPatterns` (pattern-recognition.ts lines 19-53): the
`PatternClassifier.analyze` entry point. -/
def analyzeErrorPatterns (attempts : List AttemptMetadata) : PatternAnalysisResult :=
  if attempts.length = 0 then
    { patterns := [], overallAssessment := .cont, reasoning := "No attempts yet" }
  else
    let patterns :=
      (detectStuckInLoop attempts).toList ++ (detectProgress attempts).toList ++
        (detectTimeoutPattern attempts).toList ++ (detectImprovement attempts).toList
    let assessment := determineOverallAssessment patterns attempts
    { patterns := patterns, overallAssessment := assessment.1, reasoning := assessment.2 }

/-- Source: `generateAlternativeApproach` (pattern-recognition.ts lines 275-305). -/
def generateAlternativeApproach (patterns : List ErrorPattern)
    (_attempts : List AttemptMetadata) : String :=
  let suggestions := patterns.foldl
    (fun acc p =>
      acc ++
        (if p.type == .stuck_in_loop then
          ["Try a fundamentally different implementation approach",
           "Consider using a different library or framework"] else []) ++
        (if p.type == .no_progress then
          ["Break the task into smaller, more manageable steps",
           "Review the initial requirements and simplify"] else []) ++
        (if p.type == .timeout then
          ["Optimize performance-critical code paths",
           "Add caching or memoization",
           "Consider asynchronous processing"] else []))
    []
  let suggestions :=
    if suggestions = [] then
      ["Review error messages carefully and address root causes",
       "Consult documentation for best practices",
       "Simplify the implementation"]
    else suggestions
  String.intercalate "\n- " suggestions

end PatternRecognition

/-! Section: RetryPolicy (retry-logic.ts, class RetryManager) -/

/-- Source: `RetryConfig`. -/
structure RetryConfig where
  maxAttempts : Nat
  rollbackThreshold : Nat
  deriving DecidableEq

/-- Source: `RetryDecision`. -/
structure RetryDecision where
  shouldRetry : Bool
  shouldRollback : Bool
  reason : String
  suggestedAction : Option String := none
  deriving DecidableEq

namespace RetryManager

/-- Source: `levenshteinDistance` (retry-logic.ts lines 205-231): the DP matrix there
tabulates exactly this prefix recurrence with unit insert/delete/substitute
costs. -/
def levenshteinDistance : List Char → List Char → Nat
  | [], ys => ys.length
  | x :: xs, [] => (x :: xs).length
  | x :: xs, y :: ys =>
      if x = y then levenshteinDistance xs ys
      else 1 + min (levenshteinDistance xs ys)
              (min (levenshteinDistance (x :: xs) ys) (levenshteinDistance xs (y :: ys)))
  termination_by a b => a.length + b.length
  decreasing_by all_goals simp_arith

/-- Source: `calculateStringSimilarity` (retry-logic.ts lines 191-200). -/
def calculateStringSimilarity (str1 str2 : String) : ℚ :=
  if str1 = str2 then 1
  else if str1.length = 0 ∨ str2.length = 0 then 0
  else
    let longer := if str1.length > str2.length then str1 else str2
    let shorter := if str1.length > str2.length then str2 else str1
    let editDistance := levenshteinDistance longer.toList shorter.toList
    ((longer.length : ℚ) - (editDistance : ℚ)) / (longer.length : ℚ)

/-- Source: `detectErrorLoop` (retry-logic.ts lines 138-158); the class field
`this.attempts` is passed explicitly. -/
def detectErrorLoop (attempts : List AttemptMetadata) : Bool :=
  if attempts.length < 2 then false
  else
    match attempts.drop (attempts.length - 2) with
    | [previousAttempt, lastAttempt] =>
        match lastAttempt.testResults, previousAttempt.testResults with
        | some lt, some pt =>
            let lastErrors := String.intercalate "|" lt.errors
            let prevErrors := String.intercalate "|" pt.errors
            decide (calculateStringSimilarity lastErrors prevErrors > 8/10)
        | _, _ => false
    | _ => false

/-- Source: `RetryManager.detectProgress` (retry-logic.ts lines 163-186); distinct from
the pattern-recognition function of the same name. -/
def detectProgress (attempts : List AttemptMetadata) : Bool :=
  if attempts.length < 2 then true
  else
    match attempts.drop (attempts.length - 2) with
    | [previousAttempt, lastAttempt] =>
        match lastAttempt.testResults, previousAttempt.testResults with
        | some lt, some pt =>
            if lt.errors.length < pt.errors.length then true
            else
              let lastErrors := String.intercalate "|" lt.errors
              let prevErrors := String.intercalate "|" pt.errors
              decide (calculateStringSimilarity lastErrors prevErrors < 7/10)
        | _, _ => false
    | _ => false

/-- Source: `RetryManager.analyzeAndDecide` (retry-logic.ts lines 79-133): the
`RetryPolicy.decide` entry point. -/
def analyzeAndDecide (config : RetryConfig) (attempts : List AttemptMetadata) :
    RetryDecision :=
  let attemptCount := attempts.length
  if attemptCount = 0 then
    { shouldRetry := true, shouldRollback := false, reason := "First attempt" }
  else if attemptCount ≥ config.maxAttempts then
    { shouldRetry := false, shouldRollback := true,
      reason := "Maximum attempts (" ++ toString config.maxAttempts ++ ") reached",
      suggestedAction := some "Rollback to last working version or flag for manual intervention" }
  else if detectErrorLoop attempts then
    { shouldRetry := false, shouldRollback := true,
      reason := "Stuck in error loop (same errors repeating)",
      suggestedAction := some "Try alternative approach or rollback" }
  else if !detectProgress attempts && decide (attemptCount ≥ config.rollbackThreshold) then
    { shouldRetry := false, shouldRollback := true,
      reason := "No progress detected after multiple attempts",
      suggestedAction := some "Consider different implementation strategy" }
  else
    { shouldRetry := true, shouldRollback := false,
      reason := "Retry attempt " ++ toString (attemptCount + 1) ++ "/" ++
        toString config.maxAttempts,
      suggestedAction := some "Refine approach based on previous errors" }

/-- Source: `attempt.testResults?.passed && attempt.agentResult?.success`: the success
test used by `getLastSuccessfulAttempt` and `getSummary` (an absent field is
falsy). -/
def isSuccessfulAttempt (a : AttemptMetadata) : Bool :=
  (match a.testResults with | some t => t.passed | none => false) &&
    (match a.agentResult with | some r => r.success | none => false)

/-- Source: `RetryManager.getLastSuccessfulAttempt` (retry-logic.ts lines 66-74): the
backwards for-loop returning the first index (from the end) whose attempt
satisfies `isSuccessfulAttempt`. -/
def getLastSuccessfulAttempt (attempts : List AttemptMetadata) :
    Option AttemptMetadata :=
  attempts.reverse.find? isSuccessfulAttempt

/-- Source: `RetryManager.recordAttempt` (retry-logic.ts lines 45-47): an unconditional
`this.attempts.push(metadata)`, state passed explicitly. -/
def recordAttempt (attempts : List AttemptMetadata) (metadata : AttemptMetadata) :
    List AttemptMetadata :=
  attempts ++ [metadata]

end RetryManager

/-! Section: Checkpointer (test-executor.ts, class VersionController) -/

/-- Source: `VersionMetadata` (test-executor.ts); `timestamp`, `message` and the
optional summary counts play no part in any decision and are omitted. -/
structure VersionMetadata where
  commitHash : String
  attemptNumber : Nat
  isStable : Bool
  deriving DecidableEq

/-- Source: `VersionController.getLastStableVersion` (test-executor.ts lines 440-447):
backwards scan for the most recent stable version. -/
def getLastStableVersion (versions : List VersionMetadata) : Option VersionMetadata :=
  versions.reverse.find? (fun v => v.isStable)

/-! Section: RollbackEngine (rollback-engine.ts) -/

/-- Source: `RollbackDecision`. -/
structure RollbackDecision where
  shouldRollback : Bool
  rollbackTarget : Option String := none
  reason : String
  confidence : ℚ
  alternativeApproach : Option String := none
  deriving DecidableEq

/-- Source: `RollbackEngine.makeRollbackDecision` (rollback-engine.ts lines 91-127);
the class fields `versionController` (its version list) and `attempts` are
passed explicitly. -/
def makeRollbackDecision (patternAnalysis : PatternAnalysisResult)
    (versions : List VersionMetadata) (attempts : List AttemptMetadata) :
    RollbackDecision :=
  let lastStable := getLastStableVersion versions
  if patternAnalysis.overallAssessment == .manual_intervention then
    { shouldRollback := true,
      rollbackTarget := lastStable.map (fun v => v.commitHash),
      reason := "Manual intervention required. " ++ patternAnalysis.reasoning,
      confidence := 9/10,
      alternativeApproach :=
        some "Task complexity requires human review and breakdown into smaller steps." }
  else if patternAnalysis.overallAssessment == .rollback then
    let alternatives :=
      PatternRecognition.generateAlternativeApproach patternAnalysis.patterns attempts
    { shouldRollback := true,
      rollbackTarget := lastStable.map (fun v => v.commitHash),
      reason := patternAnalysis.reasoning,
      confidence := 85/100,
      alternativeApproach := some alternatives }
  else
    { shouldRollback := false, reason := patternAnalysis.reasoning, confidence := 7/10 }

/-! Section: Orchestrator loop body (test-generator.ts, executeAgentWithValidation) -/

/-- Results of the external collaborators consulted during one iteration of the
`while (true)` loop in `executeAgentWithValidation` (test-generator.ts lines
508-721): the agent run, the workspace diff, whether a runnable test suite is
in place (`testCode && testFilePath && playwrightInstalled`; the sub-branches
where generation, installation or writing fails all behave as `false` here and
return success without tests), and the test run's outcome. -/
structure IterationInputs where
  agentSuccess : Bool
  agentError : Option String := none
  changedFiles : List String
  testsAvailable : Bool
  testResults : TestResults
  deriving DecidableEq

/-- What one loop iteration does: either finish the run with a
`ValidationResult`-style outcome and the final attempt list, or go round again
with an updated attempt list. -/
inductive IterationStep where
  | finished (success : Bool) (rolledBack : Bool) (attempts : List AttemptMetadata)
  | retry (attempts : List AttemptMetadata)
  deriving DecidableEq

/-- The body of the retry loop of `executeAgentWithValidation`
(test-generator.ts lines 508-721), for one attempt with number
`attemptNumber`, given the current recorded `attempts` and the external
results `inp`.  Attempt recording (`retryManager.recordAttempt` /
`rollbackEngine.addAttempt`) appears as the attempt list carried by the
result; version-control side effects and log output are not modelled. -/
def iterationBody (attempts : List AttemptMetadata) (attemptNumber : Nat)
    (inp : IterationInputs) : IterationStep :=
  if !inp.agentSuccess then
    -- lines 524-541: record failed attempt, continue
    .retry (RetryManager.recordAttempt attempts
      { attemptNumber := attemptNumber,
        agentResult := some { success := false, error := inp.agentError } })
  else if inp.changedFiles.length = 0 then
    -- lines 546-556: no files changed, return success without recording
    .finished true false attempts
  else if !inp.testsAvailable then
    -- lines 560-641 and 710-721: no runnable tests, return success
    .finished true false attempts
  else if inp.testResults.passed then
    -- lines 655-675: tests passed, return success
    .finished true false attempts
  else
    -- lines 676-709: tests failed, record attempt and continue
    .retry (RetryManager.recordAttempt attempts
      { attemptNumber := attemptNumber,
        testResults := some { passed := false, errors := inp.testResults.errors },
        agentResult := some { success := true, error := none } })

/-! Section: Array aliasing model (for the copying getters)

`RetryManager.getAttempts` (retry-logic.ts lines 52-54) and
`VersionController.getVersionHistory` (test-executor.ts lines 452-454) both
`return [...this.xs]`.  To state what the spread copy buys, JS array references
are modelled explicitly: a heap of array cells addressed by `Nat`, where the
manager's own array lives in one cell and a getter allocates a fresh cell
holding a copy. -/

/-- A heap of array cells. -/
structure Heap (α : Type) where
  cells : List (List α)
  deriving DecidableEq

/-- Dereference an array reference. -/
def Heap.read (h : Heap α) (r : Nat) : List α :=
  h.cells.getD r []

/-- Mutate the array behind a reference (e.g. a caller pushing onto an array a
getter returned). -/
def Heap.write (h : Heap α) (r : Nat) (v : List α) : Heap α :=
  ⟨h.cells.set r v⟩

/-- Allocate a fresh array cell (the `[...xs]` spread makes one). -/
def Heap.alloc (h : Heap α) (v : List α) : Heap α × Nat :=
  (⟨h.cells ++ [v]⟩, h.cells.length)

/-- A `RetryManager` whose `attempts` array lives on the heap. -/
structure RetryManagerH where
  heap : Heap AttemptMetadata
  attemptsRef : Nat
  deriving DecidableEq

/-- Source: `recordAttempt`: `this.attempts.push(metadata)` — in-place mutation of the
manager's own cell. -/
def RetryManagerH.recordAttempt (m : RetryManagerH) (metadata : AttemptMetadata) :
    RetryManagerH :=
  { m with heap := m.heap.write m.attemptsRef (m.heap.read m.attemptsRef ++ [metadata]) }

/-- Source: `getAttempts`: `return [...this.attempts]` — allocates a fresh cell holding
a copy and hands back a reference to it. -/
def RetryManagerH.getAttempts (m : RetryManagerH) : RetryManagerH × Nat :=
  let ar := m.heap.alloc (m.heap.read m.attemptsRef)
  ({ m with heap := ar.1 }, ar.2)

/-- A `VersionController` whose `versions` array lives on the heap. -/
structure VersionControllerH where
  heap : Heap VersionMetadata
  versionsRef : Nat
  deriving DecidableEq

/-- The `this.versions.push(version)` step of `createVersion`
(test-executor.ts line 390). -/
def VersionControllerH.pushVersion (vc : VersionControllerH) (v : VersionMetadata) :
    VersionControllerH :=
  { vc with heap := vc.heap.write vc.versionsRef (vc.heap.read vc.versionsRef ++ [v]) }

/-- Source: `getVersionHistory`: `return [...this.versions]`. -/
def VersionControllerH.getVersionHistory (vc : VersionControllerH) :
    VersionControllerH × Nat :=
  let ar := vc.heap.alloc (vc.heap.read vc.versionsRef)
  ({ vc with heap := ar.1 }, ar.2)

/-! Section: Spec-side definition for claim C5 (refinement comparison) -/

/-- The success test as the spec words it: `testOutcome.passed == true` or,
when no test outcome is present (tests were skipped),
`agentOutcome.succeeded == true`.  Stated only to compare against the source's
`isSuccessfulAttempt`, which also demands agent success when tests ran. -/
def specSuccessfulAttempt (a : AttemptMetadata) : Bool :=
  match a.testResults with
  | some t => t.passed
  | none =>
      match a.agentResult with
      | some r => r.success
      | none => false

/-! Section: Concrete inputs used by witnesses and counterexamples -/

/-- A failing attempt with one test error. -/
def attemptFail1 : AttemptMetadata :=
  { attemptNumber := 1,
    testResults := some { passed := false, errors := ["selector not found"] },
    agentResult := some { success := true, error := none } }

/-- A second failing attempt with the identical test error list. -/
def attemptFail2 : AttemptMetadata :=
  { attemptNumber := 2,
    testResults := some { passed := false, errors := ["selector not found"] },
    agentResult := some { success := true, error := none } }

/-- A failing attempt with a different single error. -/
def attemptOther : AttemptMetadata :=
  { attemptNumber := 2,
    testResults := some { passed := false, errors := ["timeout waiting for page"] },
    agentResult := some { success := true, error := none } }

/-- An attempt that passed its tests with agent success recorded. -/
def attemptPassed : AttemptMetadata :=
  { attemptNumber := 2,
    testResults := some { passed := true, errors := [] },
    agentResult := some { success := true, error := none } }

/-- An attempt whose tests passed but that carries no agent outcome. -/
def attemptPassedNoAgent : AttemptMetadata :=
  { attemptNumber := 1,
    testResults := some { passed := true, errors := [] } }

/-- An attempt with two test errors (for strictly-decreasing count series). -/
def attemptTwoErrors : AttemptMetadata :=
  { attemptNumber := 1,
    testResults :=
      some { passed := false,
             errors := ["selector not found", "timeout waiting for page"] },
    agentResult := some { success := true, error := none } }

/-- A pattern analysis demanding manual intervention. -/
def paManual : PatternAnalysisResult :=
  { patterns := [], overallAssessment := .manual_intervention,
    reasoning := "Repeated timeout errors. Task may need to be broken down or require manual review." }

/-- A pattern analysis demanding rollback. -/
def paRollback : PatternAnalysisResult :=
  { patterns := [], overallAssessment := .rollback,
    reasoning := "Detected repeating error pattern. Rollback and try alternative approach." }

/-- A pattern analysis recommending to continue. -/
def paContinue : PatternAnalysisResult :=
  { patterns := [], overallAssessment := .cont,
    reasoning := "Progress detected. Continue with current approach." }

/-- External results for a successful agent run that changed nothing. -/
def noopInputs : IterationInputs :=
  { agentSuccess := true, changedFiles := [], testsAvailable := true,
    testResults := { passed := false, errors := ["selector not found"] } }

/-- A well-formed manager with one recorded attempt in its own cell. -/
def rmh0 : RetryManagerH := { heap := ⟨[[attemptFail1]]⟩, attemptsRef := 0 }

/-- A well-formed version controller with an empty history cell. -/
def vch0 : VersionControllerH := { heap := ⟨[[]]⟩, versionsRef := 0 }

/-- A concrete version record. -/
def versionStable : VersionMetadata :=
  { commitHash := "0a1b2c3d", attemptNumber := 1, isStable := true }

/-! Section: Lemmas on the similarity scorer -/

theorem splitOnWsChar_ne_nil (cs : List Char) : splitOnWsChar cs ≠ [] := by
  cases cs with
  | nil => simp [splitOnWsChar]
  | cons c cs' => by_cases h : c.isWhitespace <;> simp [splitOnWsChar, h]

theorem jsSplitWs_ne_nil (cs : List Char) : jsSplitWs cs ≠ [] := by
  cases cs with
  | nil => simp [jsSplitWs]
  | cons c cs' =>
      by_cases h : c.isWhitespace
      · simp [jsSplitWs, h]
      · have hsplit : splitOnWsChar (c :: cs') =
            (c :: (splitOnWsChar cs').headD []) :: (splitOnWsChar cs').tail := by
          simp [splitOnWsChar, h]
        simp [jsSplitWs, h, hsplit]

theorem wordSet_nonempty (e : List String) : (wordSet e).Nonempty := by
  obtain ⟨x, hx⟩ := List.exists_mem_of_ne_nil _ (jsSplitWs_ne_nil
    (((String.intercalate " " e).toList).map Char.toLower))
  exact ⟨x, List.mem_toFinset.mpr hx⟩

theorem calculateErrorSimilarity_self (e : List String) :
    calculateErrorSimilarity e e = 1 := by
  unfold calculateErrorSimilarity
  by_cases h : e.length = 0
  · simp [h]
  · rw [if_neg (by tauto), if_neg (by tauto)]
    simp only [Finset.inter_self, Finset.union_self]
    exact div_self (by exact_mod_cast Finset.card_ne_zero.mpr (wordSet_nonempty e))

/-- C9: for all lists of strings `a` and `b`,
`similarity(a, b) == similarity(b, a)` — the word-set Jaccard overlap of
`calculateErrorSimilarity` is symmetric. -/
theorem calculateErrorSimilarity_comm (a b : List String) :
    calculateErrorSimilarity a b = calculateErrorSimilarity b a := by
  unfold calculateErrorSimilarity
  by_cases h1 : a.length = 0 <;> by_cases h2 : b.length = 0 <;>
    simp [h1, h2, Finset.inter_comm, Finset.union_comm]

/-! Section: Division guards in the decision layer -/

theorem strictlyDecreasingL_head_pos (l : List Nat) (hlen : 2 ≤ l.length)
    (hsd : PatternRecognition.strictlyDecreasingL l = true) : 0 < l.headD 0 := by
  match l, hlen with
  | a :: b :: t, _ =>
      simp only [PatternRecognition.strictlyDecreasingL, Bool.and_eq_true,
        decide_eq_true_eq] at hsd
      simpa using Nat.lt_of_le_of_lt (Nat.zero_le b) hsd.1

/-- C8: the decision layer is total and its divisions are guarded.  First, in
`detectImprovement`, whenever the strictly-decreasing branch that divides by
the oldest error count is reached (at least two counts, strictly decreasing),
that oldest count is positive.  Second, the Jaccard overlap of
`calculateErrorSimilarity` divides by a word-set union that is non-empty
whenever both error lists are non-empty (the only case that reaches the
division).  Third, `calculateStringSimilarity` divides by the longer string's
length, which is positive whenever both strings are non-empty (the only case
that reaches the division).  Totality itself is intrinsic to the embedding:
`analyzeErrorPatterns` and `analyzeAndDecide` are plain functions defined for
every list of attempts. -/
theorem decision_layer_division_guards :
    (∀ attempts : List AttemptMetadata,
      2 ≤ (PatternRecognition.errorCountsOf attempts).length →
      PatternRecognition.strictlyDecreasingL (PatternRecognition.errorCountsOf attempts) = true →
      0 < (PatternRecognition.errorCountsOf attempts).headD 0) ∧
    (∀ errors1 errors2 : List String, errors1 ≠ [] → errors2 ≠ [] →
      0 < (wordSet errors1 ∪ wordSet errors2).card) ∧
    (∀ str1 str2 : String, str1.length ≠ 0 → str2.length ≠ 0 →
      0 < (if str1.length > str2.length then str1 else str2).length) := by
  refine ⟨fun attempts h1 h2 => strictlyDecreasingL_head_pos _ h1 h2, ?_, ?_⟩
  · intro e1 e2 _ _
    exact Finset.card_pos.mpr ((wordSet_nonempty e1).mono Finset.subset_union_left)
  · intro s1 s2 h1 h2
    by_cases h : s1.length > s2.length <;> simp [h] <;> omega


/-- Witness for C8 at concrete inputs: error counts `[2, 1]` (strictly
decreasing) have positive head, the union of two non-empty word sets is
non-empty, and the longer of `"ab"` and `"c"` has positive length. -/
theorem decision_layer_division_guards_witness :
    (2 ≤ (PatternRecognition.errorCountsOf [attemptTwoErrors, attemptFail1]).length ∧
      0 < (PatternRecognition.errorCountsOf [attemptTwoErrors, attemptFail1]).headD 0) ∧
    0 < (wordSet ["selector not found"] ∪ wordSet ["timeout waiting for page"]).card ∧
    0 < (if "ab".length > "c".length then "ab" else "c").length :=
  ⟨⟨by decide, decision_layer_division_guards.1 [attemptTwoErrors, attemptFail1]
      (by decide) (by decide)⟩,
   decision_layer_division_guards.2.1 ["selector not found"] ["timeout waiting for page"]
      (by decide) (by decide),
   decision_layer_division_guards.2.2 "ab" "c" (by decide) (by decide)⟩

/-! Section: C1: loop detection on identical consecutive errors -/

/-- C1: for every attempt ledger whose last two attempts both carry test
outcomes with identical error-message lists, `analyzeErrorPatterns`
(`PatternClassifier.analyze`) emits a `stuck_in_loop` (LoopDetected) signal
with confidence exactly 1, and the overall verdict is `rollback`. -/
theorem loop_detected_on_identical_errors
    (attempts : List AttemptMetadata) (a1 a2 : AttemptMetadata) (t1 t2 : TestResults)
    (hlast : attempts.drop (attempts.length - 2) = [a1, a2])
    (h1 : a1.testResults = some t1) (h2 : a2.testResults = some t2)
    (herr : t1.errors = t2.errors) :
    (∃ p ∈ (PatternRecognition.analyzeErrorPatterns attempts).patterns,
        p.type = PatternType.stuck_in_loop ∧ p.confidence = 1) ∧
    (PatternRecognition.analyzeErrorPatterns attempts).overallAssessment =
      Assessment.rollback := by
  have hlen : 2 ≤ attempts.length := by
    have hl := congrArg List.length hlast
    simp [List.length_drop] at hl
    omega
  have hstuck : PatternRecognition.detectStuckInLoop attempts =
      some { type := .stuck_in_loop, confidence := 1,
             description := "Very similar errors appearing in consecutive attempts",
             recommendation := "Try a completely different approach or rollback" } := by
    unfold PatternRecognition.detectStuckInLoop
    rw [if_neg (by omega)]
    rw [hlast]
    simp only [h1, h2, herr, calculateErrorSimilarity_self]
    norm_num
  have h0 : ¬ attempts.length = 0 := by omega
  unfold PatternRecognition.analyzeErrorPatterns
  rw [if_neg h0, hstuck]
  simp only [Option.toList_some, List.cons_append, List.mem_cons]
  constructor
  · exact ⟨_, Or.inl rfl, rfl, rfl⟩
  · unfold PatternRecognition.determineOverallAssessment
    simp only [List.any_cons]
    rw [show (PatternType.stuck_in_loop == PatternType.stuck_in_loop &&
        decide ((1 : ℚ) > 8/10)) = true from by
      rw [show (PatternType.stuck_in_loop == PatternType.stuck_in_loop) = true from rfl,
        Bool.true_and, decide_eq_true_eq]
      norm_num]
    simp

/-- Witness for C1: two consecutive failing attempts with the identical error
list `["selector not found"]`. -/
theorem loop_detected_on_identical_errors_witness :
    (∃ p ∈ (PatternRecognition.analyzeErrorPatterns [attemptFail1, attemptFail2]).patterns,
        p.type = PatternType.stuck_in_loop ∧ p.confidence = 1) ∧
    (PatternRecognition.analyzeErrorPatterns [attemptFail1, attemptFail2]).overallAssessment =
      Assessment.rollback :=
  loop_detected_on_identical_errors [attemptFail1, attemptFail2] attemptFail1 attemptFail2
    { passed := false, errors := ["selector not found"] }
    { passed := false, errors := ["selector not found"] }
    rfl rfl rfl rfl

/-! Section: C2: bounded retries -/

/-- C2: with `maxAttempts = 3`, once at least 3 attempts are recorded —
whatever their content — `analyzeAndDecide` (`RetryPolicy.decide`) returns
no-retry, rollback, with the reason naming the maximum attempts reached. -/
theorem max_attempts_stops_retry (config : RetryConfig)
    (attempts : List AttemptMetadata) (hmax : config.maxAttempts = 3)
    (hlen : 3 ≤ attempts.length) :
    RetryManager.analyzeAndDecide config attempts =
      { shouldRetry := false, shouldRollback := true,
        reason := "Maximum attempts (3) reached",
        suggestedAction :=
          some "Rollback to last working version or flag for manual intervention" } := by
  unfold RetryManager.analyzeAndDecide
  rw [hmax]
  rw [if_neg (by omega), if_pos (by omega)]
  decide

/-- Witness for C2: three recorded attempts with `maxAttempts = 3`. -/
theorem max_attempts_stops_retry_witness :
    RetryManager.analyzeAndDecide { maxAttempts := 3, rollbackThreshold := 2 }
      [attemptFail1, attemptOther, attemptFail2] =
      { shouldRetry := false, shouldRollback := true,
        reason := "Maximum attempts (3) reached",
        suggestedAction :=
          some "Rollback to last working version or flag for manual intervention" } :=
  max_attempts_stops_retry { maxAttempts := 3, rollbackThreshold := 2 }
    [attemptFail1, attemptOther, attemptFail2] rfl (by decide)

/-! Section: C3: the 0.7 "no reduction in errors" branch is dead code -/

theorem nonIncreasingL_of_const (a : Nat) (t : List Nat) (h : ∀ c ∈ t, c = a) :
    PatternRecognition.nonIncreasingL (a :: t) = true := by
  induction t generalizing a with
  | nil => rfl
  | cons b t' ih =>
      have hb : b = a := h b (by simp)
      have ht' : ∀ c ∈ t', c = b := by
        intro c hc
        rw [hb]
        exact h c (List.mem_cons_of_mem b hc)
      subst hb
      simp only [PatternRecognition.nonIncreasingL, Bool.and_eq_true, decide_eq_true_eq]
      exact ⟨le_refl b, ih b ht'⟩

theorem allEqHead_nonIncreasing (l : List Nat)
    (h : l.all (fun c => c == l.headD 0) = true) :
    PatternRecognition.nonIncreasingL l = true := by
  cases l with
  | nil => rfl
  | cons a t =>
      rw [List.all_eq_true] at h
      refine nonIncreasingL_of_const a t (fun c hc => ?_)
      have hc' := h c (List.mem_cons_of_mem a hc)
      simpa using hc'

theorem detectProgress_no_seven_tenths (attempts : List AttemptMetadata)
    (p : ErrorPattern) (h : PatternRecognition.detectProgress attempts = some p) :
    p.confidence = 8/10 := by
  unfold PatternRecognition.detectProgress at h
  split at h
  · exact absurd h (by simp)
  · simp only [] at h
    split at h
    · exact absurd h (by simp)
    · split at h
      · cases h; rfl
      · split at h
        · rename_i hguard
          rw [Bool.and_eq_true, Bool.not_eq_true'] at hguard
          exact absurd (allEqHead_nonIncreasing _ hguard.2) (by simp [hguard.1])
        · exact absurd h (by simp)

/-- C3 (evaluation at the failing input): two attempts whose test outcomes
carry equal, non-zero error counts (`[1, 1]`) — the claim expects a
`no_progress` signal with confidence 0.7, but `detectProgress` returns
nothing, because its second branch requires `!isDecreasing` together with
all-equal counts, which is contradictory (all-equal counts are non-increasing;
see `detectProgress_no_seven_tenths` for the general statement). -/
theorem equal_error_counts_yield_no_signal :
    PatternRecognition.errorCountsOf [attemptFail1, attemptOther] = [1, 1] ∧
    PatternRecognition.detectProgress [attemptFail1, attemptOther] = none := by
  constructor
  · decide
  · decide

/-! Section: C4: record never rejects, it always appends -/

/-- C4 counterexample: recording an attempt whose index (5) is not
`count + 1 = 1` into an empty ledger still appends — the ledger's count
changes from 0 to 1, there is no `InvalidSequence` rejection in
`recordAttempt`. -/
theorem record_wrong_index_still_appends :
    ({ attemptNumber := 5 } : AttemptMetadata).attemptNumber ≠
      ([] : List AttemptMetadata).length + 1 ∧
    (RetryManager.recordAttempt [] { attemptNumber := 5 }).length = 1 := by
  constructor
  · decide
  · decide

/-- C4 amended: `recordAttempt` appends unconditionally — for every ledger
and every attempt, whatever its index, the count increases by exactly 1 and
`last()` returns that attempt; no index validation takes place. -/
theorem record_always_appends (attempts : List AttemptMetadata)
    (m : AttemptMetadata) :
    (RetryManager.recordAttempt attempts m).length = attempts.length + 1 ∧
    (RetryManager.recordAttempt attempts m).getLast? = some m := by
  refine ⟨by simp [RetryManager.recordAttempt], ?_⟩
  simp [RetryManager.recordAttempt, List.getLast?_concat]

/-! Section: C5: which attempts count as successful -/

theorem find?_split {α : Type} (p : α → Bool) (l : List α) (a : α)
    (h : l.find? p = some a) :
    ∃ l1 l2, l = l1 ++ a :: l2 ∧ ∀ b ∈ l1, p b = false := by
  induction l with
  | nil => simp at h
  | cons x xs ih =>
      rw [List.find?_cons] at h
      by_cases hx : p x = true
      · rw [hx] at h
        cases h
        exact ⟨[], xs, rfl, by simp⟩
      · rw [Bool.not_eq_true] at hx
        rw [hx] at h
        obtain ⟨l1, l2, rfl, hf⟩ := ih h
        refine ⟨x :: l1, l2, rfl, fun b hb => ?_⟩
        rcases List.mem_cons.mp hb with hb | hb
        · rw [hb]; exact hx
        · exact hf b hb

/-- C5 counterexample: an attempt whose tests passed but which carries no
agent outcome is successful per the claim's disjunction, yet
`getLastSuccessfulAttempt` skips it (the code conjoins
`testResults?.passed` with `agentResult?.success`). -/
theorem lastSuccessful_ignores_agentless_pass :
    specSuccessfulAttempt attemptPassedNoAgent = true ∧
    RetryManager.getLastSuccessfulAttempt [attemptPassedNoAgent] = none := by
  constructor
  · decide
  · decide

/-- C5 amended: `getLastSuccessfulAttempt` returns the most recent attempt
satisfying `isSuccessfulAttempt` — tests present and passed AND agent outcome
present and succeeded — and `none` exactly when no attempt satisfies it. -/
theorem lastSuccessful_characterization (attempts : List AttemptMetadata) :
    (RetryManager.getLastSuccessfulAttempt attempts = none ↔
      ∀ a ∈ attempts, RetryManager.isSuccessfulAttempt a = false) ∧
    ∀ a, RetryManager.getLastSuccessfulAttempt attempts = some a →
      RetryManager.isSuccessfulAttempt a = true ∧
      ∃ pre post, attempts = pre ++ a :: post ∧
        ∀ b ∈ post, RetryManager.isSuccessfulAttempt b = false := by
  constructor
  · unfold RetryManager.getLastSuccessfulAttempt
    rw [List.find?_eq_none]
    constructor
    · intro h a ha
      have := h a (List.mem_reverse.mpr ha)
      simpa using this
    · intro h a ha
      have := h a (List.mem_reverse.mp ha)
      simp [this]
  · intro a h
    unfold RetryManager.getLastSuccessfulAttempt at h
    refine ⟨List.find?_some h, ?_⟩
    obtain ⟨l1, l2, hsplit, hfail⟩ := find?_split _ _ _ h
    have hrev : attempts = l2.reverse ++ a :: l1.reverse := by
      have h2 := congrArg List.reverse hsplit
      simpa [List.reverse_append] using h2
    exact ⟨l2.reverse, l1.reverse, hrev,
      fun b hb => hfail b (List.mem_reverse.mp hb)⟩

/-- Witness for the amended C5 at a concrete ledger: in
`[attemptFail1, attemptPassed]` the most recent successful attempt is
`attemptPassed`, with nothing after it. -/
theorem lastSuccessful_characterization_witness :
    RetryManager.isSuccessfulAttempt attemptPassed = true ∧
    ∃ pre post, [attemptFail1, attemptPassed] = pre ++ attemptPassed :: post ∧
      ∀ b ∈ post, RetryManager.isSuccessfulAttempt b = false :=
  (lastSuccessful_characterization [attemptFail1, attemptPassed]).2
    attemptPassed (by decide)

/-! Section: C6: rollback decision cases -/

theorem Assessment.beq_def (a b : Assessment) : (a == b) = decide (a = b) := rfl


/-- C6: `makeRollbackDecision` (`RollbackEngine.decide`) rolls back with
confidence 0.9 on a manual-intervention verdict and 0.85 on a rollback
verdict — in both cases targeting the last stable version's commit hash — and
declines with confidence 0.7 otherwise; when no stable version exists the
target is absent while the rollback cases still roll back. -/
theorem rollback_decision_cases (pa : PatternAnalysisResult)
    (versions : List VersionMetadata) (attempts : List AttemptMetadata) :
    (pa.overallAssessment = Assessment.manual_intervention →
      (makeRollbackDecision pa versions attempts).shouldRollback = true ∧
      (makeRollbackDecision pa versions attempts).confidence = 9/10 ∧
      (makeRollbackDecision pa versions attempts).rollbackTarget =
        (getLastStableVersion versions).map (fun v => v.commitHash)) ∧
    (pa.overallAssessment = Assessment.rollback →
      (makeRollbackDecision pa versions attempts).shouldRollback = true ∧
      (makeRollbackDecision pa versions attempts).confidence = 85/100 ∧
      (makeRollbackDecision pa versions attempts).rollbackTarget =
        (getLastStableVersion versions).map (fun v => v.commitHash)) ∧
    (pa.overallAssessment = Assessment.cont →
      (makeRollbackDecision pa versions attempts).shouldRollback = false ∧
      (makeRollbackDecision pa versions attempts).confidence = 7/10) ∧
    (getLastStableVersion versions = none →
      (makeRollbackDecision pa versions attempts).rollbackTarget = none) := by
  refine ⟨fun h => ?_, fun h => ?_, fun h => ?_, fun h => ?_⟩
  · simp [makeRollbackDecision, Assessment.beq_def, h]
  · simp [makeRollbackDecision, Assessment.beq_def, h]
  · simp [makeRollbackDecision, Assessment.beq_def, h]
  · rcases ha : pa.overallAssessment <;>
      simp [makeRollbackDecision, Assessment.beq_def, ha, h]

/-- Witness for C6 at concrete inputs, one per verdict, all with an empty
version history (so the target is the absent last-stable). -/
theorem rollback_decision_cases_witness :
    ((makeRollbackDecision paManual [] []).shouldRollback = true ∧
      (makeRollbackDecision paManual [] []).confidence = 9/10 ∧
      (makeRollbackDecision paManual [] []).rollbackTarget =
        (getLastStableVersion []).map (fun v => v.commitHash)) ∧
    ((makeRollbackDecision paRollback [] []).shouldRollback = true ∧
      (makeRollbackDecision paRollback [] []).confidence = 85/100 ∧
      (makeRollbackDecision paRollback [] []).rollbackTarget =
        (getLastStableVersion []).map (fun v => v.commitHash)) ∧
    ((makeRollbackDecision paContinue [] []).shouldRollback = false ∧
      (makeRollbackDecision paContinue [] []).confidence = 7/10) ∧
    (makeRollbackDecision paContinue [] []).rollbackTarget = none :=
  ⟨(rollback_decision_cases paManual [] []).1 rfl,
   (rollback_decision_cases paRollback [] []).2.1 rfl,
   (rollback_decision_cases paContinue [] []).2.2.1 rfl,
   (rollback_decision_cases paContinue [] []).2.2.2 rfl⟩

/-! Section: C7: the no-op-change path -/


/-- C7 counterexample: with a successful agent run and an empty changed-file
list, the loop body finishes the run successfully but the attempt list stays
empty — no succeeded Attempt is recorded on this path, contrary to the
claim. -/
theorem noop_change_records_no_attempt :
    iterationBody [] 1 noopInputs = IterationStep.finished true false [] := by
  decide

/-- C7 amended: whenever the change-producer succeeds and `changedPaths()` is
empty, the run terminates successfully without invoking the test runner and
without recording any attempt (the attempt list is returned unchanged; the
result does not depend on any test outcome). -/
theorem noop_change_succeeds_without_recording
    (attempts : List AttemptMetadata) (n : Nat) (inp : IterationInputs)
    (hA : inp.agentSuccess = true) (hC : inp.changedFiles = []) :
    iterationBody attempts n inp = IterationStep.finished true false attempts := by
  simp [iterationBody, hA, hC]

/-- Witness for the amended C7 on a non-empty ledger. -/
theorem noop_change_succeeds_without_recording_witness :
    iterationBody [attemptFail1] 2 noopInputs =
      IterationStep.finished true false [attemptFail1] :=
  noop_change_succeeds_without_recording [attemptFail1] 2 noopInputs rfl rfl

/-! Section: C10: copying getters and the array heap -/

theorem Heap.read_write_ne {α : Type} (h : Heap α) (r s : Nat)
    (v : List α) (hne : r ≠ s) : (h.write r v).read s = h.read s := by
  simp [Heap.read, Heap.write, List.getD, List.getElem?_set_ne hne]

theorem Heap.read_alloc_lt {α : Type} (h : Heap α) (v : List α) (s : Nat)
    (hs : s < h.cells.length) : (h.alloc v).1.read s = h.read s := by
  simp [Heap.read, Heap.alloc, List.getD, List.getElem?_append, hs]

theorem Heap.read_alloc_self {α : Type} (h : Heap α) (v : List α) :
    (h.alloc v).1.read (h.alloc v).2 = v := by
  simp [Heap.read, Heap.alloc, List.getD, List.getElem?_concat_length]

/-- C10: the getters hand out fresh copies.  For a well-formed manager (its
own array reference is a live heap cell): the reference returned by
`getAttempts` / `getVersionHistory` is distinct from the internal one;
mutating the returned array leaves the internal array unchanged; and a
subsequent `recordAttempt` / version push does not alter the array returned
earlier (it still holds the copied history). -/
theorem getters_return_fresh_copies :
    (∀ m : RetryManagerH, m.attemptsRef < m.heap.cells.length →
      ∀ (v : List AttemptMetadata) (a : AttemptMetadata),
        m.getAttempts.2 ≠ m.attemptsRef ∧
        (m.getAttempts.1.heap.write m.getAttempts.2 v).read m.attemptsRef =
          m.heap.read m.attemptsRef ∧
        (m.getAttempts.1.recordAttempt a).heap.read m.getAttempts.2 =
          m.heap.read m.attemptsRef) ∧
    (∀ vc : VersionControllerH, vc.versionsRef < vc.heap.cells.length →
      ∀ (v : List VersionMetadata) (w : VersionMetadata),
        vc.getVersionHistory.2 ≠ vc.versionsRef ∧
        (vc.getVersionHistory.1.heap.write vc.getVersionHistory.2 v).read vc.versionsRef =
          vc.heap.read vc.versionsRef ∧
        (vc.getVersionHistory.1.pushVersion w).heap.read vc.getVersionHistory.2 =
          vc.heap.read vc.versionsRef) := by
  constructor
  · intro m hm v a
    refine ⟨by simp [RetryManagerH.getAttempts, Heap.alloc]; omega, ?_, ?_⟩
    · have h1 : m.getAttempts.2 ≠ m.attemptsRef := by
        simp [RetryManagerH.getAttempts, Heap.alloc]; omega
      rw [Heap.read_write_ne _ _ _ _ h1]
      exact Heap.read_alloc_lt m.heap _ _ hm
    · have h1 : m.attemptsRef ≠ m.getAttempts.2 := by
        simp [RetryManagerH.getAttempts, Heap.alloc]; omega
      rw [RetryManagerH.recordAttempt,
        show m.getAttempts.1.attemptsRef = m.attemptsRef from rfl,
        Heap.read_write_ne _ _ _ _ h1]
      exact Heap.read_alloc_self m.heap _
  · intro vc hvc v w
    refine ⟨by simp [VersionControllerH.getVersionHistory, Heap.alloc]; omega, ?_, ?_⟩
    · have h1 : vc.getVersionHistory.2 ≠ vc.versionsRef := by
        simp [VersionControllerH.getVersionHistory, Heap.alloc]; omega
      rw [Heap.read_write_ne _ _ _ _ h1]
      exact Heap.read_alloc_lt vc.heap _ _ hvc
    · have h1 : vc.versionsRef ≠ vc.getVersionHistory.2 := by
        simp [VersionControllerH.getVersionHistory, Heap.alloc]; omega
      rw [VersionControllerH.pushVersion,
        show vc.getVersionHistory.1.versionsRef = vc.versionsRef from rfl,
        Heap.read_write_ne _ _ _ _ h1]
      exact Heap.read_alloc_self vc.heap _


/-- Witness for C10 on concrete heaps with one live cell each. -/
theorem getters_return_fresh_copies_witness :
    (rmh0.getAttempts.2 ≠ rmh0.attemptsRef ∧
      (rmh0.getAttempts.1.heap.write rmh0.getAttempts.2 []).read rmh0.attemptsRef =
        rmh0.heap.read rmh0.attemptsRef ∧
      (rmh0.getAttempts.1.recordAttempt attemptFail2).heap.read rmh0.getAttempts.2 =
        rmh0.heap.read rmh0.attemptsRef) ∧
    (vch0.getVersionHistory.2 ≠ vch0.versionsRef ∧
      (vch0.getVersionHistory.1.heap.write vch0.getVersionHistory.2 []).read vch0.versionsRef =
        vch0.heap.read vch0.versionsRef ∧
      (vch0.getVersionHistory.1.pushVersion versionStable).heap.read vch0.getVersionHistory.2 =
        vch0.heap.read vch0.versionsRef) :=
  ⟨getters_return_fresh_copies.1 rmh0 (by decide) [] attemptFail2,
   getters_return_fresh_copies.2 vch0 (by decide) [] versionStable⟩
